import Mathlib

/-!
# RemotePSpy — shallow embedding and verification

This file embeds the reassembly/decoding pipeline of RemotePSpy
(`remotepspy/psrp.py`, `remotepspy/winrm.py`, `remotepspy/simple_command_tracer.py`)
as executable Lean definitions and proves properties of the embedding.

Modelling conventions:
* Python `bytes` is `List Nat` (each element a byte value 0..255).
* Python dicts that are never iterated are modelled as functions `κ → Option α`;
  dicts whose insertion order is observable (the WS-Man tracking tables, which are
  iterated or whose emptiness we assert) are association lists with
  dict-style insert/remove; Python lists are Lean lists.
* Exceptions are modelled by an explicit `Bool` "raised" component or by
  `Except String`; a raised exception in a handler aborts the rest of that
  handler exactly where the source would propagate it.
* Identifier types (shell ids, message ids, command ids) are type parameters
  with decidable equality; the WS-Man layer instantiates them with `String`
  (the XML text values).  The Python `None` identifier corner cases that
  cannot arise in the modelled call paths are noted where they occur.
* base64 is a bijection between its valid inputs and byte strings, so XML text
  fields that the source base64-decodes are carried directly as an optional
  decoded byte string (`B64` below distinguishes missing text / undecodable
  text / decoded bytes).
-/

abbrev Bytes := List Nat

/-- Pointwise update of a function-valued finite map. -/
def fupd {κ α : Type} [DecidableEq κ] (f : κ → Option α) (k : κ) (v : Option α) :
    κ → Option α :=
  fun k2 => if k2 = k then v else f k2

/-- Python-dict lookup on an association list (first matching key). -/
def dlookup {κ α : Type} [DecidableEq κ] : List (κ × α) → κ → Option α
  | [], _ => none
  | (k2, v) :: rest, k => if k2 = k then some v else dlookup rest k

/-- Python-dict assignment `d[k] = v`: replace in place, else append. -/
def dinsert {κ α : Type} [DecidableEq κ] : List (κ × α) → κ → α → List (κ × α)
  | [], k, v => [(k, v)]
  | (k2, v2) :: rest, k, v =>
    if k2 = k then (k, v) :: rest else (k2, v2) :: dinsert rest k v

/-- Python-dict `d.pop(k)`: remove the (first) entry with key `k`. -/
def dremove {κ α : Type} [DecidableEq κ] : List (κ × α) → κ → List (κ × α)
  | [], _ => []
  | (k2, v2) :: rest, k =>
    if k2 = k then rest else (k2, v2) :: dremove rest k

/-- Big-endian unsigned 32-bit value of (up to) four bytes (`struct '>I'`). -/
def beU32 (bs : Bytes) : Nat :=
  bs.foldl (fun acc b => acc * 256 + b) 0

/-- Big-endian signed 64-bit value of eight bytes (`struct '>q'`). -/
def beI64 (bs : Bytes) : Int :=
  let u : Nat := bs.foldl (fun acc b => acc * 256 + b) 0
  if u < 2 ^ 63 then (u : Int) else (u : Int) - (2 : Int) ^ 64

/-- Little-endian unsigned 16-bit value of two bytes (`struct '<H'`). -/
def leU16 (b0 b1 : Nat) : Nat := b0 + 256 * b1

/-- Little-endian unsigned 32-bit value of four bytes (`struct '<I'`). -/
def leU32 (bs : Bytes) : Nat :=
  (bs.take 4).foldr (fun b acc => acc * 256 + b) 0

/-! ## PSRPDefragmenter (psrp.py lines 91-247)

Per-(identifier, object) buffers.  Two identifier spaces share the generic
`_append_frag_data`: known shells (keyed by shell id, type `ι`) and pending
shells (keyed by the creating message id, type `μ`).  Command ids have type `γ`.
-/

/-- One object buffer: `{'last_fragment_id': …, 'buffer': …, 'command_id': …}`
(psrp.py line 157 creates it; line 158 always sets `command_id` before any
read, so we give the field a placeholder `none` at creation). -/
structure ObjBuf (γ : Type) where
  last_fragment_id : Int
  buffer : Bytes
  command_id : Option γ
deriving DecidableEq

/-- The per-identifier object-buffer dict `{obj_id: ObjBuf}`. -/
abbrev ObjMap (γ : Type) := Int → Option (ObjBuf γ)

/-- A whole buffer space: `shell_bufs` or `pending_shell_bufs`. -/
abbrev BufMap (ι γ : Type) := ι → Option (ObjMap γ)

/-- A message delivered to the completion callback:
`(identifier, object_id, message bytes, command_id)`. -/
abbrev Deliv (ι γ : Type) := ι × Int × Bytes × Option γ

/-- The object map `bufs[identifier]` after the auto-register of psrp.py
lines 151-154: the existing dict, or a fresh empty one. -/
def map_of {γ : Type} (om0 : Option (ObjMap γ)) : ObjMap γ :=
  match om0 with
  | some om => om
  | none => fun _ => none

/-- The object buffer `bufs[identifier][object_id]` after the creation step of
psrp.py lines 156-157: the existing record, or a fresh
`{'last_fragment_id': -1, 'buffer': b''}`. -/
def buf0_of {γ : Type} (om0 : Option (ObjMap γ)) (object_id : Int) : ObjBuf γ :=
  match map_of om0 object_id with
  | some b => b
  | none => { last_fragment_id := -1, buffer := [], command_id := none }

/-- `PSRPDefragmenter._append_frag_data` (psrp.py lines 148-175) restricted to
the single identifier slot it reads and writes.  Returns the updated object
map for that identifier and the completed message passed to the callback, if
any.  Lines 151-154 auto-register a missing identifier (an empty object map);
lines 156-157 create a fresh buffer with `last_fragment_id = -1`; line 158
overwrites `command_id`; lines 160-164 reject a fragment whose id is not
`last_fragment_id + 1` (note the source never updates `last_fragment_id`
afterwards); line 167 appends the payload; lines 170-175 deliver and drop the
buffer when the end flag is set.  `s_flag` is accepted but unused, as in the
source. -/
def append_frag_obj {γ : Type} (om0 : Option (ObjMap γ)) (object_id fragment_id : Int)
    (_s_flag e_flag : Bool) (frag_data : Bytes) (command_id : Option γ) :
    ObjMap γ × Option (Int × Bytes × Option γ) :=
  let om : ObjMap γ := map_of om0
  let b0 : ObjBuf γ := buf0_of om0 object_id
  let b1 : ObjBuf γ := { b0 with command_id := command_id }
  if b0.last_fragment_id + 1 ≠ fragment_id then
    (fupd om object_id (some b1), none)
  else
    let b2 : ObjBuf γ := { b1 with buffer := b1.buffer ++ frag_data }
    if e_flag then
      (fupd om object_id none, some (object_id, b2.buffer, b2.command_id))
    else
      (fupd om object_id (some b2), none)

/-- `_append_frag_data` acting on a whole buffer space at `ident`. -/
def append_frag_data {ι γ : Type} [DecidableEq ι] (bufs : BufMap ι γ) (ident : ι)
    (object_id fragment_id : Int) (s_flag e_flag : Bool) (frag_data : Bytes)
    (command_id : Option γ) : BufMap ι γ × Option (Int × Bytes × Option γ) :=
  let r := append_frag_obj (bufs ident) object_id fragment_id s_flag e_flag frag_data command_id
  (fupd bufs ident (some r.1), r.2)

/-- A parsed PSRP fragment, as handed to `_append_frag_data`. -/
structure Frag (γ : Type) where
  object_id : Int
  fragment_id : Int
  s_flag : Bool
  e_flag : Bool
  frag_data : Bytes
  command_id : Option γ
deriving DecidableEq

/-- The full defragmenter state (psrp.py lines 104-108). -/
structure DefragState (ι μ γ : Type) where
  shell_bufs : BufMap ι γ
  pending_shell_bufs : BufMap μ γ
  pending_shell_completed_messages : μ → Option (List (Int × Bytes × Option γ))

/-- The empty defragmenter state (as built by `__init__`). -/
def emptyDefrag (ι μ γ : Type) : DefragState ι μ γ :=
  { shell_bufs := fun _ => none
    pending_shell_bufs := fun _ => none
    pending_shell_completed_messages := fun _ => none }

/-- `has_shell` (psrp.py line 185). -/
def has_shell {ι μ γ : Type} (st : DefragState ι μ γ) (shell_id : ι) : Bool :=
  (st.shell_bufs shell_id).isSome

/-- `new_shell` (psrp.py lines 195-202): warn-and-keep on duplicate, else an
empty object dict.  (The Python `None` shell id guard cannot fire here: `ι`
contains only genuine identifiers.) -/
def new_shell {ι μ γ : Type} [DecidableEq ι] (st : DefragState ι μ γ) (shell_id : ι) :
    DefragState ι μ γ :=
  if (st.shell_bufs shell_id).isSome then st
  else { st with shell_bufs := fupd st.shell_bufs shell_id (some (fun _ => none)) }

/-- `new_pending_shell` (psrp.py lines 204-212). -/
def new_pending_shell {ι μ γ : Type} [DecidableEq μ] (st : DefragState ι μ γ)
    (message_id : μ) : DefragState ι μ γ :=
  if (st.pending_shell_bufs message_id).isSome then st
  else { st with pending_shell_bufs := fupd st.pending_shell_bufs message_id (some (fun _ => none)) }

/-- `delete_shell` (psrp.py lines 236-239). -/
def delete_shell {ι μ γ : Type} [DecidableEq ι] (st : DefragState ι μ γ) (shell_id : ι) :
    DefragState ι μ γ :=
  if (st.shell_bufs shell_id).isSome then
    { st with shell_bufs := fupd st.shell_bufs shell_id none }
  else st

/-- One fragment fed into the known-shell space, with the completed-message
callback delivering `(shell_id, object_id, bytes, command_id)`.  This is
`_append_frag_data` as used by `new_fragment` / each iteration of
`new_fragment_data` (psrp.py lines 111-119). -/
def append_frag_shell {ι μ γ : Type} [DecidableEq ι] (st : DefragState ι μ γ) (shell_id : ι)
    (f : Frag γ) : DefragState ι μ γ × Option (Deliv ι γ) :=
  let r := append_frag_data st.shell_bufs shell_id f.object_id f.fragment_id f.s_flag f.e_flag
    f.frag_data f.command_id
  ({ st with shell_bufs := r.1 },
   r.2.map (fun t => (shell_id, t.1, t.2.1, t.2.2)))

/-- `new_fragment` (psrp.py lines 111-113): pre-parsed fragment for a known
shell; `frag_len` is accepted but unused and `command_id` defaults to `None`,
as in the source. -/
def new_fragment {ι μ γ : Type} [DecidableEq ι] (st : DefragState ι μ γ) (shell_id : ι)
    (object_id fragment_id : Int) (s_flag e_flag : Bool) (_frag_len : Nat)
    (frag_data : Bytes) : DefragState ι μ γ × Option (Deliv ι γ) :=
  append_frag_shell st shell_id
    { object_id := object_id, fragment_id := fragment_id, s_flag := s_flag,
      e_flag := e_flag, frag_data := frag_data, command_id := none }

/-- One fragment fed into the pending-shell space.  Completed messages go to
`pending_shell_message_callback` (psrp.py lines 180-183), which stashes
`(object_id, bytes, command_id)` under the message id. -/
def append_frag_pending {ι μ γ : Type} [DecidableEq μ] (st : DefragState ι μ γ)
    (message_id : μ) (f : Frag γ) : DefragState ι μ γ :=
  let r := append_frag_data st.pending_shell_bufs message_id f.object_id f.fragment_id f.s_flag
    f.e_flag f.frag_data f.command_id
  match r.2 with
  | none => { st with pending_shell_bufs := r.1 }
  | some t =>
    { st with
      pending_shell_bufs := r.1
      pending_shell_completed_messages :=
        fupd st.pending_shell_completed_messages message_id
          (some (((st.pending_shell_completed_messages message_id).getD []) ++ [t])) }

/-- Feed a list of pre-parsed fragments to a known shell, collecting the
delivered messages in order. -/
def feed_shell_frags {ι μ γ : Type} [DecidableEq ι] (st : DefragState ι μ γ) (shell_id : ι) :
    List (Frag γ) → DefragState ι μ γ × List (Deliv ι γ)
  | [] => (st, [])
  | f :: L =>
    let r := append_frag_shell st shell_id f
    let r2 := feed_shell_frags r.1 shell_id L
    (r2.1, (match r.2 with | some d => [d] | none => []) ++ r2.2)

/-- Feed a list of pre-parsed fragments to a pending shell (completions are
stashed, not delivered). -/
def feed_pending_frags {ι μ γ : Type} [DecidableEq μ] (st : DefragState ι μ γ)
    (message_id : μ) : List (Frag γ) → DefragState ι μ γ
  | [] => st
  | f :: L => feed_pending_frags (append_frag_pending st message_id f) message_id L

/-- `set_pending_shell_id` (psrp.py lines 214-233).  Returns the new state, the
messages flushed to the real callback (labelled with the real shell id, in
insertion order), and whether the final unconditional
`pending_shell_completed_messages.pop(message_id)` raised `KeyError`
(it does exactly when no message completed for the pending shell). -/
def set_pending_shell_id {ι μ γ : Type} [DecidableEq ι] [DecidableEq μ]
    (st : DefragState ι μ γ) (message_id : μ) (shell_id : ι) :
    DefragState ι μ γ × List (Deliv ι γ) × Bool :=
  match st.pending_shell_bufs message_id with
  | none =>
    -- lines 215-221: unknown pending shell; just track the shell id
    (new_shell st shell_id, [], false)
  | some om =>
    -- line 223: move the buffers out of the pending space
    let pend2 := fupd st.pending_shell_bufs message_id none
    -- lines 224-227: keep existing shell buffers (pending ones are dropped),
    -- else adopt the pending buffers
    let shells2 := if (st.shell_bufs shell_id).isSome then st.shell_bufs
      else fupd st.shell_bufs shell_id (some om)
    -- lines 229-231: flush stashed completed messages in insertion order
    let delivs := match st.pending_shell_completed_messages message_id with
      | some l => l.map (fun t => (shell_id, t.1, t.2.1, t.2.2))
      | none => []
    let raised := (st.pending_shell_completed_messages message_id).isNone
    ({ shell_bufs := shells2
       pending_shell_bufs := pend2
       pending_shell_completed_messages :=
         fupd st.pending_shell_completed_messages message_id none },
     delivs, raised)

/-- The fragment-stream parse loop `_new_fragment_data` (psrp.py lines
128-146), over one buffer space.  Fragment header (21 bytes, `'>qqbI'`):
`object_id i64 | fragment_id i64 | flags u8 (bit0 = start, bit1 = end) |
length u32`; the payload slice silently truncates when the declared length
exceeds the remaining bytes, and a strictly short header raises
`struct.error` (the `Bool` result).  `fuel` is a structural-recursion bound;
every iteration consumes at least 21 bytes, so `fuel = data.length` (as passed
by the wrappers below) can never run out. -/
def new_fragment_data_loop {ι γ : Type} [DecidableEq ι] :
    Nat → BufMap ι γ → ι → Option γ → Bytes →
      BufMap ι γ × List (Int × Bytes × Option γ) × Bool
  | _, bufs, _, _, [] => (bufs, [], false)
  | 0, bufs, _, _, _ :: _ => (bufs, [], true)
  | fuel + 1, bufs, ident, command_id, b :: bs =>
    let data : Bytes := b :: bs
    if data.length < 21 then (bufs, [], true)
    else
      let object_id := beI64 (data.take 8)
      let fragment_id := beI64 ((data.drop 8).take 8)
      let e_s := (data.drop 16).headD 0
      let frag_len := beU32 ((data.drop 17).take 4)
      let frag_data := (data.drop 21).take frag_len
      let s_flag := (e_s &&& 1) != 0
      let e_flag := (e_s &&& 2) != 0
      let r := append_frag_data bufs ident object_id fragment_id s_flag e_flag frag_data
        command_id
      let r2 := new_fragment_data_loop fuel r.1 ident command_id (data.drop (21 + frag_len))
      (r2.1, (match r.2 with | some t => [t] | none => []) ++ r2.2.1, r2.2.2)

/-- `new_fragment_data` (psrp.py lines 117-119): parse a raw byte stream of
fragments for a known shell.  Returns `(state, delivered messages, raised)`. -/
def new_fragment_data {ι μ γ : Type} [DecidableEq ι] (st : DefragState ι μ γ) (shell_id : ι)
    (fragment_data : Bytes) (command_id : Option γ) :
    DefragState ι μ γ × List (Deliv ι γ) × Bool :=
  let r := new_fragment_data_loop fragment_data.length st.shell_bufs shell_id command_id
    fragment_data
  ({ st with shell_bufs := r.1 },
   r.2.1.map (fun t => (shell_id, t.1, t.2.1, t.2.2)), r.2.2)

/-- `new_fragment_data_pending_shell` (psrp.py lines 124-126): as above for a
pending shell; each completed message is stashed in order. -/
def new_fragment_data_pending_shell {ι μ γ : Type} [DecidableEq μ] (st : DefragState ι μ γ)
    (message_id : μ) (fragment_data : Bytes) (command_id : Option γ) :
    DefragState ι μ γ × Bool :=
  let r := new_fragment_data_loop fragment_data.length st.pending_shell_bufs message_id
    command_id fragment_data
  ({ st with
     pending_shell_bufs := r.1
     pending_shell_completed_messages :=
       r.2.1.foldl
         (fun acc t => fupd acc message_id (some ((acc message_id).getD [] ++ [t])))
         st.pending_shell_completed_messages },
   r.2.2)

/-! ## PSRPParser (psrp.py lines 8-88) -/

/-- The closed message-type registry `PSRPParser.MSG_TYPES` (psrp.py lines 11-43). -/
def MSG_TYPES : List (Nat × String) :=
  [ (0x00010002, "SESSION_CAPABILITY")
  , (0x00010004, "INIT_RUNSPACEPOOL")
  , (0x00010005, "PUBLIC_KEY")
  , (0x00010006, "ENCRYPTED_SESSION_KEY")
  , (0x00010007, "PUBLIC_KEY_REQUEST")
  , (0x00021002, "SET_MAX_RUNSPACES")
  , (0x00021003, "SET_MIN_RUNSPACES")
  , (0x00021004, "RUNSPACE_AVAILABILITY")
  , (0x00021005, "RUNSPACEPOOL_STATE")
  , (0x00021006, "CREATE_PIPELINE")
  , (0x00021007, "GET_AVAILABLE_RUNSPACES")
  , (0x00021008, "USER_EVENT")
  , (0x00021009, "APPLICATION_PRIVATE_DATA")
  , (0x0002100A, "GET_COMMAND_METADATA")
  , (0x00021100, "RUNSPACEPOOL_HOST_CALL")
  , (0x00021101, "RUNSPACEPOOL_HOST_RESPONSE")
  , (0x00041002, "PIPELINE_INPUT")
  , (0x00041003, "END_OF_PIPELINE_INPUT")
  , (0x00041004, "PIPELINE_OUTPUT")
  , (0x00041005, "ERROR_RECORD")
  , (0x00041006, "PIPELINE_STATE")
  , (0x00041007, "DEBUG_RECORD")
  , (0x00041008, "VERBOSE_RECORD")
  , (0x00041009, "WARNING_RECORD")
  , (0x00041010, "PROGRESS_RECORD")
  , (0x00041011, "INFORMATION_RECORD")
  , (0x00041100, "PIPELINE_HOST_CALL")
  , (0x00041101, "PIPELINE_HOST_RESPONSE")
  , (0x00010008, "CONNECT_RUNSPACEPOOL")
  , (0x0002100B, "RUNSPACEPOOL_INIT_DATA")
  , (0x0002100C, "RESET_RUNSPACE_STATE") ]

/-- `PSRPParser._msg_type_name` with `unknown` left at its default:
`none` models the raised `KeyError` (psrp.py lines 65-73). -/
def msg_type_name (msg_type : Nat) : Option String :=
  dlookup MSG_TYPES msg_type

/-- `uuid.UUID(bytes_le=…)`: reorder 16 little-endian UUID bytes into
big-endian field order (first three fields byte-reversed). -/
def uuid_bytes_le (bs : Bytes) : Bytes :=
  (bs.take 4).reverse ++ ((bs.drop 4).take 2).reverse ++ ((bs.drop 6).take 2).reverse ++ bs.drop 8

/-- `bytes.decode('utf-8-sig')` modelled on the byte level: strip a single
leading UTF-8 BOM.  (We keep the text as bytes; decoding errors from invalid
UTF-8 are outside this model.) -/
def strip_bom (bs : Bytes) : Bytes :=
  if bs.take 3 = [0xEF, 0xBB, 0xBF] then bs.drop 3 else bs

/-- The tuple passed to the `PSRPParser` callback (psrp.py line 61). -/
structure PsrpMsg where
  destination : Nat
  message_type : Nat
  rpid : Bytes
  pipeline_id : Bytes
  data : Bytes
deriving DecidableEq

/-- `PSRPParser.new_psrp_message` (psrp.py lines 49-61).  The 40-byte header
is little-endian `destination u32 | message_type u32 | rpid 16 | pipeline_id
16`; a shorter message makes `struct.unpack` / `UUID` raise.  The debug-log
line 57-60 calls `_msg_type_name(message_type)` with no `unknown` argument,
so an unregistered message type raises `KeyError` before the callback is
invoked; `.ok` is the callback invocation. -/
def new_psrp_message (message : Bytes) : Except String PsrpMsg :=
  if message.length < 40 then Except.error "struct.error"
  else
    let destination := leU32 (message.take 4)
    let message_type := leU32 ((message.drop 4).take 4)
    let rpid := uuid_bytes_le ((message.drop 8).take 16)
    let pipeline_id := uuid_bytes_le ((message.drop 24).take 16)
    let data := strip_bom (message.drop 40)
    match msg_type_name message_type with
    | none => Except.error "KeyError"
    | some _ =>
      Except.ok { destination := destination, message_type := message_type, rpid := rpid,
                  pipeline_id := pipeline_id, data := data }

/-! ## XPRESS stream decompression (winrm.py lines 481-515) -/

/-- The block loop of `WSManPS._decompress_stream_data` (winrm.py lines
485-515), parameterised by the external decompression primitive
`d block expected_uncompressed_size`.  Block header (4 bytes little-endian):
`uncompressed_size u16 | compressed_size u16`, both stored biased by one.
When the corrected sizes agree the block body is appended verbatim; a header
with fewer than 4 bytes raises `struct.error`.  `fuel` is a structural bound;
every iteration consumes at least 5 bytes so `fuel = blob.length` never runs
out. -/
def decompress_loop (d : Bytes → Nat → Bytes) (fuel : Nat) (stream_blob : Bytes) :
    Except String Bytes :=
  if stream_blob = [] then Except.ok []
  else
    match fuel with
    | 0 => Except.error "fuel"
    | fuel + 1 =>
      if stream_blob.length < 4 then Except.error "struct.error"
      else
        let uncompressed_size := leU16 (stream_blob.headD 0) ((stream_blob.drop 1).headD 0) + 1
        let compressed_size := leU16 ((stream_blob.drop 2).headD 0) ((stream_blob.drop 3).headD 0) + 1
        let rest := stream_blob.drop 4
        let compressed_block := rest.take compressed_size
        let final_block_data :=
          if uncompressed_size ≠ compressed_size then d compressed_block uncompressed_size
          else compressed_block
        match decompress_loop d fuel (rest.drop compressed_size) with
        | Except.ok out => Except.ok (final_block_data ++ out)
        | Except.error e => Except.error e

/-- `WSManPS._decompress_stream_data` (winrm.py lines 481-515): raises
immediately when libwim failed to load (lines 482-483). -/
def decompress_stream_data (libwim : Bool) (d : Bytes → Nat → Bytes) (stream_blob : Bytes) :
    Except String Bytes :=
  if libwim = false then Except.error "libwim not initialized"
  else decompress_loop d stream_blob.length stream_blob

/-! ## SoapDefragmenter (winrm.py lines 522-581) -/

/-- One partial SOAP assembly (winrm.py lines 553-554). -/
structure SoapAssembly where
  total_chunks : Nat
  last_chunk : Nat
  pid : Nat
  tid : Nat
  soap : String
deriving DecidableEq

/-- The assembly key.  The source formats `'{}_{}_{}'` from the activity id
(or the `-1` fallback, modelled as `none`), pid and tid; since pid and tid
render without underscores the format is injective, so we key on the triple
directly. -/
abbrev SoapKey := Option String × Nat × Nat

/-- The fields of a WinRM ETW event consumed by `SoapDefragmenter.new_event`
(winrm.py lines 543-556). -/
structure SoapEvent where
  activity_id : Option String
  pid : Nat
  tid : Nat
  totalChunks : Nat
  index : Nat
  soapDocument : String

/-- `SoapDefragmenter.new_event` (winrm.py lines 538-581).  Returns the new
`partial_messages` map and the completed document handed to
`completed_soap_callback`, if any.  An out-of-order chunk index raises
`SoapDefragmenterException`; the surrounding `except` then drops the key's
assembly (lines 574-581). -/
def soap_new_event (st : SoapKey → Option SoapAssembly) (e : SoapEvent) :
    (SoapKey → Option SoapAssembly) × Option (Option String × Nat × Nat × String) :=
  let mkey : SoapKey := (e.activity_id, e.pid, e.tid)
  let a0 : SoapAssembly := match st mkey with
    | some a => a
    | none =>
      { total_chunks := e.totalChunks, last_chunk := 0, pid := e.pid, tid := e.tid, soap := "" }
  if e.index ≠ a0.last_chunk + 1 then
    (fupd st mkey none, none)
  else
    let a1 := { a0 with last_chunk := a0.last_chunk + 1, soap := a0.soap ++ e.soapDocument }
    if e.index = a1.total_chunks then
      (fupd st mkey none, some (e.activity_id, e.pid, e.tid, a1.soap))
    else
      (fupd st mkey (some a1), none)

/-! ## WSManPS (winrm.py lines 17-515)

The XML layer is abstracted away: a `SoapDoc` carries exactly the element and
attribute values the dispatcher reads (via the XPath locations in the source).
Shell ids, message ids and command ids are the XML text values (`String`), so
the defragmenter is instantiated at `String` throughout.
-/

/-- Result of base64-decoding an optional XML text:
`missing` — element absent or text `None` (so `.encode` raises
`AttributeError`); `bad` — text present but not valid base64
(`binascii.Error` / `ValueError`); `good bs` — the decoded bytes. -/
inductive B64 where
  | missing
  | bad
  | good (bs : Bytes)
deriving DecidableEq

/-- A `w:Selector` element: `Name` attribute and text. -/
structure Selector where
  name : Option String
  text : Option String
deriving DecidableEq

/-- An `rsp:CommandState` element of a ReceiveResponse. -/
structure CommandStateElem where
  command_id : Option String
  state : Option String
  exit_code : Option String
deriving DecidableEq

/-- An `rsp:Stream` element of a ReceiveResponse. -/
structure StreamElem where
  name : Option String
  command_id : Option String
  blob : B64
deriving DecidableEq

/-- A parsed WS-Man SOAP document, restricted to the locations the dispatcher
reads (winrm.py; see the XPath list in the spec §6). -/
structure SoapDoc where
  hasHeader : Bool
  action : Option String
  resource_uri : Option String
  to_field : Option String
  message_id : Option String
  relates_to : Option String
  selectors : List Selector
  has_shell_elem : Bool
  creation_xml : B64
  has_resource_created : Bool
  has_ref_params : Bool
  body_resource_uri : Option String
  body_selectors : List Selector
  body_command_id : Option String
  arguments : B64
  command_states : List CommandStateElem
  streams : List StreamElem
  desired_streams : List (Option String)
deriving DecidableEq

abbrev WDefrag := DefragState String String String
abbrev WDeliv := Deliv String String

/-- The mutable state of a `WSManPS` instance (winrm.py lines 45-101).
`libwim` records whether the external decompressor loaded. -/
structure WState where
  defrag : WDefrag
  receive_msgs : List (Option String × String)
  command_msgs : List (Option String × String)
  delete_msgs : List (Option String × String)
  create_msgs : List (Option String)
  commands : List (String × String)
  libwim : Bool

def PS_RESOURCE_URI : String :=
  "http://schemas.microsoft.com/powershell/Microsoft.PowerShell"

def CMD_STATE_DONE : String :=
  "http://schemas.microsoft.com/wbem/wsman/1/windows/shell/CommandState/Done"

def uriCreateResponse : String := "http://schemas.xmlsoap.org/ws/2004/09/transfer/CreateResponse"
def uriDeleteResponse : String := "http://schemas.xmlsoap.org/ws/2004/09/transfer/DeleteResponse"
def uriCreate : String := "http://schemas.xmlsoap.org/ws/2004/09/transfer/Create"
def uriDelete : String := "http://schemas.xmlsoap.org/ws/2004/09/transfer/Delete"
def uriFault : String := "http://schemas.dmtf.org/wbem/wsman/1/wsman/fault"
def uriCommandResponse : String :=
  "http://schemas.microsoft.com/wbem/wsman/1/windows/shell/CommandResponse"
def uriReceiveResponse : String :=
  "http://schemas.microsoft.com/wbem/wsman/1/windows/shell/ReceiveResponse"
def uriCommand : String := "http://schemas.microsoft.com/wbem/wsman/1/windows/shell/Command"
def uriReceive : String := "http://schemas.microsoft.com/wbem/wsman/1/windows/shell/Receive"
def uriSignal : String := "http://schemas.microsoft.com/wbem/wsman/1/windows/shell/Signal"

/-- The keys of the dispatch table `self.ps_actions` (winrm.py lines 66-77). -/
def ps_actions : List String :=
  [ uriCreateResponse, uriDeleteResponse, uriCreate, uriDelete, uriFault,
    uriCommandResponse, uriReceiveResponse, uriCommand, uriReceive, uriSignal ]

/-- `WSManPS._get_shell_id` (winrm.py lines 414-423): the text of the first
selector whose `Name` is `ShellId` (the loop breaks at the first match). -/
def get_shell_id : List Selector → Option String
  | [] => none
  | s :: rest => if s.name = some "ShellId" then s.text else get_shell_id rest

/-- `WSManPS._track_shell_id` (winrm.py lines 446-458): iterate over all
selectors (no break); every `ShellId` selector with non-`None`, non-empty text
overwrites `tracking[key]`. -/
def track_shell_id (selectors : List Selector) (key : Option String)
    (tracking : List (Option String × String)) : List (Option String × String) :=
  selectors.foldl
    (fun tr s =>
      if s.name = some "ShellId" then
        match s.text with
        | some sid => if sid ≠ "" then dinsert tr key sid else tr
        | none => tr
      else tr)
    tracking

/-- `WSManPS._known_shell_id_or_resource_uri` (winrm.py lines 425-440).  May
register a new shell as a side effect (line 437). -/
def known_shell_id_or_resource_uri (st : WState) (selectors : List Selector)
    (resource_uri : Option String) : WState × Bool :=
  match get_shell_id selectors with
  | some sid =>
    if has_shell st.defrag sid then (st, true)
    else if resource_uri = some PS_RESOURCE_URI then
      ({ st with defrag := new_shell st.defrag sid }, true)
    else (st, false)
  | none =>
    if resource_uri = some PS_RESOURCE_URI then (st, true) else (st, false)

/-- `WSManPS._track_command_by_id` (winrm.py lines 469-475). -/
def track_command_by_id (st : WState) (command_id : String) (shell_id : Option String) :
    WState :=
  match shell_id with
  | some sid =>
    if sid ≠ "" then { st with commands := dinsert st.commands command_id sid } else st
  | none => st

/-- `WSManPS._track_create` (winrm.py lines 477-479). -/
def track_create (st : WState) (message_id : Option String) : WState :=
  if st.create_msgs.contains message_id then st
  else { st with create_msgs := st.create_msgs ++ [message_id] }

/-- Handler result: new state, messages delivered by the PSRP completion
callback during the handler, and whether an exception escaped the handler
(to be swallowed by `new_soap`'s catch-all). -/
abbrev HRes := WState × List WDeliv × Bool

/-- `WSManPS._action_create` (winrm.py lines 230-264). -/
def action_create (st : WState) (doc : SoapDoc) : HRes :=
  if doc.resource_uri ≠ some PS_RESOURCE_URI then (st, [], false)
  else if doc.has_shell_elem = false then (st, [], false)
  else
    let st1 := track_create st doc.message_id
    match doc.creation_xml with
    | B64.missing => (st1, [], true)
    | B64.bad => (st1, [], false)
    | B64.good bs =>
      match doc.message_id with
      | none =>
        -- `new_pending_shell(None)` refuses to create a buffer (psrp.py lines
        -- 205-207) and the subsequent feed raises `KeyError`
        (st1, [], true)
      | some mid =>
        let d1 := new_pending_shell st1.defrag mid
        let r := new_fragment_data_pending_shell d1 mid bs none
        ({ st1 with defrag := r.1 }, [], r.2)

/-- `WSManPS._action_create_response` (winrm.py lines 145-211). -/
def action_create_response (st : WState) (doc : SoapDoc) : HRes :=
  let rt := doc.relates_to
  let pending_match := rt.isSome && st.create_msgs.contains rt
  let st1 := if pending_match then { st with create_msgs := st.create_msgs.erase rt } else st
  if doc.has_resource_created = false then (st1, [], false)
  else if doc.has_ref_params = false then (st1, [], false)
  else if pending_match = false ∧ doc.body_resource_uri ≠ some PS_RESOURCE_URI then
    (st1, [], false)
  else
    match get_shell_id doc.body_selectors with
    | none => (st1, [], false)
    | some sid =>
      match rt with
      | none =>
        -- `set_pending_shell_id(None, sid)`: no pending entry under `None`,
        -- so only the shell is registered (psrp.py lines 215-221)
        ({ st1 with defrag := new_shell st1.defrag sid }, [], false)
      | some rtv =>
        let r := set_pending_shell_id st1.defrag rtv sid
        ({ st1 with defrag := r.1 }, r.2.1, r.2.2)

/-- `WSManPS._action_delete` (winrm.py lines 266-273). -/
def action_delete (st : WState) (doc : SoapDoc) : HRes :=
  let r := known_shell_id_or_resource_uri st doc.selectors doc.resource_uri
  if r.2 = false then (r.1, [], false)
  else
    ({ r.1 with delete_msgs := track_shell_id doc.selectors doc.message_id r.1.delete_msgs },
     [], false)

/-- `WSManPS._action_delete_response` (winrm.py lines 213-228). -/
def action_delete_response (st : WState) (doc : SoapDoc) : HRes :=
  match doc.relates_to with
  | none => (st, [], false)
  | some rtv =>
    match dlookup st.delete_msgs (some rtv) with
    | none => (st, [], false)
    | some sid =>
      let st1 := { st with delete_msgs := dremove st.delete_msgs (some rtv) }
      if has_shell st1.defrag sid then
        ({ st1 with defrag := delete_shell st1.defrag sid }, [], false)
      else (st1, [], false)

/-- `WSManPS._action_fault` (winrm.py lines 275-276): no-op. -/
def action_fault (st : WState) (_doc : SoapDoc) : HRes := (st, [], false)

/-- `WSManPS._action_signal` (winrm.py lines 408-412): no-op. -/
def action_signal (st : WState) (_doc : SoapDoc) : HRes := (st, [], false)

/-- `WSManPS._action_command` (winrm.py lines 355-383). -/
def action_command (st : WState) (doc : SoapDoc) : HRes :=
  let shell_id := get_shell_id doc.selectors
  let r := known_shell_id_or_resource_uri st doc.selectors doc.resource_uri
  if r.2 = false then (r.1, [], false)
  else
    let st1 := r.1
    match doc.arguments with
    | B64.missing => (st1, [], false)
    | B64.bad =>
      ({ st1 with
         command_msgs := track_shell_id doc.selectors doc.message_id st1.command_msgs },
       [], false)
    | B64.good bs =>
      match shell_id with
      | none =>
        -- `new_fragment_data(None, …)`: `new_shell(None)` refuses to create a
        -- buffer (psrp.py lines 196-198) and the feed raises `KeyError`
        (st1, [], true)
      | some sid =>
        let fr := new_fragment_data st1.defrag sid bs none
        if fr.2.2 then ({ st1 with defrag := fr.1 }, fr.2.1, true)
        else
          ({ st1 with
             defrag := fr.1
             command_msgs := track_shell_id doc.selectors doc.message_id st1.command_msgs },
           fr.2.1, false)

/-- `WSManPS._action_command_response` (winrm.py lines 278-301). -/
def action_command_response (st : WState) (doc : SoapDoc) : HRes :=
  match doc.relates_to with
  | none => (st, [], false)
  | some rtv =>
    match dlookup st.command_msgs (some rtv) with
    | none => (st, [], false)
    | some sid =>
      match doc.body_command_id with
      | none => (st, [], false)
      | some cid =>
        let st1 := { st with command_msgs := dremove st.command_msgs (some rtv) }
        (track_command_by_id st1 cid (some sid), [], false)

/-- `WSManPS._action_receive` (winrm.py lines 385-406). -/
def action_receive (st : WState) (doc : SoapDoc) : HRes :=
  let shell_id := get_shell_id doc.selectors
  let r := known_shell_id_or_resource_uri st doc.selectors doc.resource_uri
  if r.2 = false then (r.1, [], false)
  else
    let st1 :=
      { r.1 with
        receive_msgs := track_shell_id doc.selectors doc.message_id r.1.receive_msgs }
    let st2 := doc.desired_streams.foldl
      (fun s cid0 =>
        match cid0 with
        | none => s
        | some cid =>
          if (dlookup s.commands cid).isSome then s else track_command_by_id s cid shell_id)
      st1
    (st2, [], false)

/-- The `commands_finished` dict built by `_action_receive_response`
(winrm.py lines 315-325). -/
def commands_finished_of (css : List CommandStateElem) : List (String × Option String) :=
  css.foldl
    (fun acc cs =>
      match cs.command_id with
      | none => acc
      | some cid =>
        if cs.state = some CMD_STATE_DONE ∨ cs.exit_code.isSome then
          dinsert acc cid cs.exit_code
        else acc)
    []

/-- The stream loop of `_action_receive_response` (winrm.py lines 327-350).
A stream whose text is missing raises `AttributeError`; base64 failure is
caught and the stream skipped; decompression (or fragment parsing) raising
aborts the whole handler at that stream. -/
def process_streams (d : Bytes → Nat → Bytes) (libwim : Bool) :
    WDefrag → String → List StreamElem → WDefrag × List WDeliv × Bool
  | dfs, _, [] => (dfs, [], false)
  | dfs, sid, se :: rest =>
    match se.blob with
    | B64.missing => (dfs, [], true)
    | B64.bad => process_streams d libwim dfs sid rest
    | B64.good bs =>
      match decompress_stream_data libwim d bs with
      | Except.error _ => (dfs, [], true)
      | Except.ok dec =>
        let fr := new_fragment_data dfs sid dec se.command_id
        if fr.2.2 then (fr.1, fr.2.1, true)
        else
          let r2 := process_streams d libwim fr.1 sid rest
          (r2.1, fr.2.1 ++ r2.2.1, r2.2.2)

/-- The finished-command removal loop of `_action_receive_response`
(winrm.py lines 352-353): `self.commands.pop(command_id)` raises `KeyError`
when the id is not tracked. -/
def pop_finished :
    List (String × String) → List (String × Option String) → List (String × String) × Bool
  | commands, [] => (commands, false)
  | commands, (cid, _) :: rest =>
    if (dlookup commands cid).isSome then pop_finished (dremove commands cid) rest
    else (commands, true)

/-- `WSManPS._action_receive_response` (winrm.py lines 303-353). -/
def action_receive_response (d : Bytes → Nat → Bytes) (st : WState) (doc : SoapDoc) : HRes :=
  match doc.relates_to with
  | none => (st, [], false)
  | some rtv =>
    match dlookup st.receive_msgs (some rtv) with
    | none => (st, [], false)
    | some sid =>
      let st1 := { st with receive_msgs := dremove st.receive_msgs (some rtv) }
      let fin := commands_finished_of doc.command_states
      let ps := process_streams d st1.libwim st1.defrag sid doc.streams
      if ps.2.2 then ({ st1 with defrag := ps.1 }, ps.2.1, true)
      else
        let pf := pop_finished st1.commands fin
        ({ st1 with
           defrag := ps.1
           commands := pf.1 },
         ps.2.1, pf.2)

/-- Dispatch on the action URI (the `self.ps_actions[action](…)` call,
winrm.py line 138; reachable only for actions in `ps_actions`). -/
def dispatch_action (d : Bytes → Nat → Bytes) (st : WState) (doc : SoapDoc) (act : String) :
    HRes :=
  if act = uriCreateResponse then action_create_response st doc
  else if act = uriDeleteResponse then action_delete_response st doc
  else if act = uriCreate then action_create st doc
  else if act = uriDelete then action_delete st doc
  else if act = uriFault then action_fault st doc
  else if act = uriCommandResponse then action_command_response st doc
  else if act = uriReceiveResponse then action_receive_response d st doc
  else if act = uriCommand then action_command st doc
  else if act = uriReceive then action_receive st doc
  else if act = uriSignal then action_signal st doc
  else (st, [], false)

/-- `WSManPS.new_soap` (winrm.py lines 103-143).  Returns the new state, the
PSRP messages delivered while handling the document, and the action routed to
a handler (`none` when the document was ignored).  The catch-all at lines
140-143 swallows any exception escaping a handler, so a handler's raised flag
does not propagate. -/
def new_soap (d : Bytes → Nat → Bytes) (st : WState) (doc : SoapDoc) :
    WState × List WDeliv × Option String :=
  if doc.hasHeader = false then (st, [], none)
  else
    match doc.action with
    | none => (st, [], none)
    | some act =>
      if ps_actions.contains act = false then (st, [], none)
      else
        match doc.resource_uri with
        | some uri =>
          if uri ≠ PS_RESOURCE_URI then (st, [], none)
          else
            let r := dispatch_action d st doc act
            (r.1, r.2.1, some act)
        | none =>
          let r := dispatch_action d st doc act
          (r.1, r.2.1, some act)

/-! ## Auxiliary definitions used by the theorems -/

/-- Iterate `_append_frag_data` over one identifier slot, collecting the
completed messages (the slot-local view of feeding a fragment list to one
identifier). -/
def run_frags_obj {γ : Type} (om0 : Option (ObjMap γ)) :
    List (Frag γ) → Option (ObjMap γ) × List (Int × Bytes × Option γ)
  | [] => (om0, [])
  | f :: L =>
    let r := append_frag_obj om0 f.object_id f.fragment_id f.s_flag f.e_flag f.frag_data
      f.command_id
    let r2 := run_frags_obj (some r.1) L
    (r2.1, (match r.2 with | some t => [t] | none => []) ++ r2.2)

/-- The `(last_fragment_id, buffer)` pair the append policy consults for an
object, with the creation default `(-1, [])` for an untracked identifier or
object (psrp.py lines 156-160). -/
def obj_core {γ : Type} (om0 : Option (ObjMap γ)) (o : Int) : Int × Bytes :=
  ((buf0_of om0 o).last_fragment_id, (buf0_of om0 o).buffer)

/-- Two defragmenter states that the append policy cannot distinguish:
identical `(last_fragment_id, buffer)` views of every known-shell object
buffer (identifier presence and the stored `command_id` may differ), and
identical pending-shell state. -/
def core_equiv {ι μ γ : Type} (st1 st2 : DefragState ι μ γ) : Prop :=
  (∀ i o, obj_core (st1.shell_bufs i) o = obj_core (st2.shell_bufs i) o) ∧
  st1.pending_shell_bufs = st2.pending_shell_bufs ∧
  st1.pending_shell_completed_messages = st2.pending_shell_completed_messages

/-- In-order fragment sequences in the sense of the spec: for each object the
fragment ids run 0, 1, 2, … in arrival order. -/
def in_order_frags_go {γ : Type} (next : List (Int × Int)) : List (Frag γ) → Bool
  | [] => true
  | f :: L =>
    let expected := (dlookup next f.object_id).getD 0
    if f.fragment_id = expected then
      in_order_frags_go (dinsert next f.object_id (expected + 1)) L
    else false

def in_order_frags {γ : Type} (L : List (Frag γ)) : Bool :=
  in_order_frags_go [] L

/-- A fragment-insertion operation on the defragmenter: a pre-parsed fragment
fed to a known shell or to a pending shell. -/
inductive FeedOp (ι μ γ : Type) where
  | known (shell_id : ι) (f : Frag γ)
  | pending (message_id : μ) (f : Frag γ)

/-- Apply a sequence of fragment insertions, collecting the messages
delivered to the completion callback (pending-shell completions are stashed,
not delivered). -/
def apply_feeds {ι μ γ : Type} [DecidableEq ι] [DecidableEq μ] (st : DefragState ι μ γ) :
    List (FeedOp ι μ γ) → DefragState ι μ γ × List (Deliv ι γ)
  | [] => (st, [])
  | FeedOp.known s f :: ops =>
    let r := append_frag_shell st s f
    let r2 := apply_feeds r.1 ops
    (r2.1, (match r.2 with | some d0 => [d0] | none => []) ++ r2.2)
  | FeedOp.pending m f :: ops => apply_feeds (append_frag_pending st m f) ops

/-- The pending-shell life cycle of claim C2: open a pending shell under
`message_id`, feed it `L`, promote it to `shell_id`, then feed `L2` under the
real shell.  Result: (messages flushed at promotion, all messages delivered
to the real callback). -/
def pending_promote_run {ι μ γ : Type} [DecidableEq ι] [DecidableEq μ]
    (st : DefragState ι μ γ) (message_id : μ) (shell_id : ι) (L L2 : List (Frag γ)) :
    List (Deliv ι γ) × List (Deliv ι γ) :=
  let st1 := new_pending_shell st message_id
  let st2 := feed_pending_frags st1 message_id L
  let pr := set_pending_shell_id st2 message_id shell_id
  let r2 := feed_shell_frags pr.1 shell_id L2
  (pr.2.1, pr.2.1 ++ r2.2)

/-- The direct life cycle claim C2 compares against: register `shell_id` from
the start and feed `L` then `L2` to it.  Result: (messages delivered during
`L`, all messages delivered). -/
def direct_run {ι μ γ : Type} [DecidableEq ι] (st : DefragState ι μ γ) (shell_id : ι)
    (L L2 : List (Frag γ)) : List (Deliv ι γ) × List (Deliv ι γ) :=
  let st1 := new_shell st shell_id
  let r1 := feed_shell_frags st1 shell_id L
  let r2 := feed_shell_frags r1.1 shell_id L2
  (r1.2, r1.2 ++ r2.2)

/-- A stand-in for the external XPRESS primitive in concrete runs (never
consulted on the inputs we evaluate). -/
def dummyDecomp : Bytes → Nat → Bytes := fun _ n => List.replicate n 0

/-- A SOAP document with every optional part absent. -/
def emptySoapDoc : SoapDoc :=
  { hasHeader := true
    action := none
    resource_uri := none
    to_field := none
    message_id := none
    relates_to := none
    selectors := []
    has_shell_elem := false
    creation_xml := B64.missing
    has_resource_created := false
    has_ref_params := false
    body_resource_uri := none
    body_selectors := []
    body_command_id := none
    arguments := B64.missing
    command_states := []
    streams := []
    desired_streams := [] }

/-- Scenario S1 (claim C1): three in-order fragments of object 7, only the
last with the end flag, payloads `01 02`, `03`, `04 05`. -/
def s1_frags : List (Frag Nat) :=
  [ { object_id := 7, fragment_id := 0, s_flag := true, e_flag := false,
      frag_data := [1, 2], command_id := none }
  , { object_id := 7, fragment_id := 1, s_flag := false, e_flag := false,
      frag_data := [3], command_id := none }
  , { object_id := 7, fragment_id := 2, s_flag := false, e_flag := true,
      frag_data := [4, 5], command_id := none } ]

/-- The S1 run: shell 1 registered, then the three fragments fed in order. -/
def s1_run : DefragState Nat Nat Nat × List (Deliv Nat Nat) :=
  feed_shell_frags (new_shell (emptyDefrag Nat Nat Nat) 1) 1 s1_frags


/-- C6 counterexample state: the defragmenter already tracks shell `S`. -/
def c6_st : WState :=
  { defrag := new_shell (emptyDefrag String String String) "S"
    receive_msgs := []
    command_msgs := []
    delete_msgs := []
    create_msgs := []
    commands := []
    libwim := true }

/-- C6 counterexample document: a Delete with a tracked `ShellId` selector but
a present, non-PowerShell `ResourceURI`. -/
def c6_doc : SoapDoc :=
  { emptySoapDoc with
    action := some uriDelete
    resource_uri := some "http://example.invalid/other-resource"
    message_id := some "M"
    selectors := [{ name := some "ShellId", text := some "S" }] }

/-- C6 witness document: a Signal with no `ResourceURI`. -/
def c6w_doc : SoapDoc :=
  { emptySoapDoc with action := some uriSignal }

/-- A single complete PSRP fragment stream (object 0, fragment 0, end flag,
one payload byte `A`), used as decodable stream content in C3. -/
def c3_frag_bytes : Bytes :=
  List.replicate 16 0 ++ [2, 0, 0, 0, 1, 0x41]

/-- C3 state: decompressor unavailable, a Receive tracked for shell `S`, and
command `C` tracked. -/
def c3_st : WState :=
  { defrag := new_shell (emptyDefrag String String String) "S"
    receive_msgs := [(some "M2", "S")]
    command_msgs := []
    delete_msgs := []
    create_msgs := []
    commands := [("C", "S")]
    libwim := false }

/-- C3 document: a ReceiveResponse relating to the tracked Receive, carrying a
Done command state for `C` and two decodable streams. -/
def c3_doc : SoapDoc :=
  { emptySoapDoc with
    action := some uriReceiveResponse
    relates_to := some "M2"
    command_states := [{ command_id := some "C", state := some CMD_STATE_DONE,
                         exit_code := none }]
    streams := [ { name := some "stdout", command_id := some "C", blob := B64.good c3_frag_bytes }
               , { name := some "stdout", command_id := some "C",
                   blob := B64.good c3_frag_bytes } ] }

/-- C9 initial state: shell `S` tracked and a Receive request `M2` tracked. -/
def c9_st0 : WState :=
  { defrag := new_shell (emptyDefrag String String String) "S"
    receive_msgs := [(some "M2", "S")]
    command_msgs := []
    delete_msgs := []
    create_msgs := []
    commands := []
    libwim := true }

/-- C9 step 1: a Command request with `MessageId = M1` and `ShellId = S`. -/
def c9_doc1 : SoapDoc :=
  { emptySoapDoc with
    action := some uriCommand
    message_id := some "M1"
    selectors := [{ name := some "ShellId", text := some "S" }]
    arguments := B64.good [] }

/-- C9 step 2: a CommandResponse with `RelatesTo = M1` carrying `CommandId = C`. -/
def c9_doc2 : SoapDoc :=
  { emptySoapDoc with
    action := some uriCommandResponse
    relates_to := some "M1"
    body_command_id := some "C" }

/-- C9 step 3: a ReceiveResponse with `RelatesTo = M2` whose command state for
`C` is Done. -/
def c9_doc3 : SoapDoc :=
  { emptySoapDoc with
    action := some uriReceiveResponse
    relates_to := some "M2"
    command_states := [{ command_id := some "C", state := some CMD_STATE_DONE,
                         exit_code := none }] }

def c9_st1 : WState := (new_soap dummyDecomp c9_st0 c9_doc1).1
def c9_st2 : WState := (new_soap dummyDecomp c9_st1 c9_doc2).1
def c9_st3 : WState := (new_soap dummyDecomp c9_st2 c9_doc3).1


/-- C4 counterexample (identifiers are `Nat`): pending shell 0 holds a
partial object (fragment 0 of object 1, no end flag). -/
def c4_pending_state : DefragState Nat Nat Nat :=
  feed_pending_frags (new_pending_shell (emptyDefrag Nat Nat Nat) 0) 0
    [{ object_id := 1, fragment_id := 0, s_flag := true, e_flag := false,
       frag_data := [1], command_id := none }]

/-- The out-of-order fragment of the C4 counterexample, inserted under the
(untracked) shell 5: fragment id 7 where 0 was expected. -/
def c4_out_of_order_frag : Frag Nat :=
  { object_id := 2, fragment_id := 7, s_flag := false, e_flag := false,
    frag_data := [9], command_id := none }

/-- The fragment that finishes object 1 after promotion. -/
def c4_final_frag : Frag Nat :=
  { object_id := 1, fragment_id := 0, s_flag := false, e_flag := true,
    frag_data := [2], command_id := none }

/-- Deliveries of (promote pending 0 to shell 5; feed the finishing fragment)
after the out-of-order insert: the insert created `shell_bufs[5]`, so the
promotion discards the pending buffers. -/
def c4_with_insert : List (Deliv Nat Nat) :=
  let st := (append_frag_shell c4_pending_state 5 c4_out_of_order_frag).1
  let pr := set_pending_shell_id st 0 5
  pr.2.1 ++ (feed_shell_frags pr.1 5 [c4_final_frag]).2

/-- The same subsequent operations without the insert: the pending buffers
migrate and the finishing fragment completes the buffered object. -/
def c4_without_insert : List (Deliv Nat Nat) :=
  let pr := set_pending_shell_id c4_pending_state 0 5
  pr.2.1 ++ (feed_shell_frags pr.1 5 [c4_final_frag]).2

/-! ## Support lemmas -/

theorem fupd_same {κ α : Type} [DecidableEq κ] (f : κ → Option α) (k : κ) (v : Option α) :
    fupd f k v k = v := by
  simp [fupd]

theorem fupd_ne {κ α : Type} [DecidableEq κ] (f : κ → Option α) (k k2 : κ) (v : Option α)
    (h : k2 ≠ k) : fupd f k v k2 = f k2 := by
  simp [fupd, h]

theorem DefragState.ext_eq {ι μ γ : Type} (a b : DefragState ι μ γ)
    (h1 : a.shell_bufs = b.shell_bufs)
    (h2 : a.pending_shell_bufs = b.pending_shell_bufs)
    (h3 : a.pending_shell_completed_messages = b.pending_shell_completed_messages) :
    a = b := by
  cases a; cases b; simp_all

/-! ## Claim C1 -/

/-- Claim C1 (code bug): the claim asserts that in-order fragments 0, 1, 2 with
only the last flagged `end` produce exactly one delivery carrying the
concatenated payloads.  The source never advances `last_fragment_id`
(psrp.py lines 148-175 write it only at creation, line 157), so fragment 1 of
scenario S1 is already rejected as out of order and nothing is ever
delivered: the run of S1 delivers no message and leaves object 7 buffered
with only fragment 0's payload and `last_fragment_id` still `-1`. -/
theorem c1_s1_multi_fragment_message_never_delivered :
    s1_run.2 = [] ∧
    (s1_run.1.shell_bufs 1).bind (fun om => om 7) =
      some { last_fragment_id := -1, buffer := [1, 2], command_id := (none : Option Nat) } := by
  decide

/-! ## Claim C5 -/

/-- Claim C5 (corrected): a completed PSRP object whose header carries an
unregistered message-type code does not make the parser "report an error and
drop" — `new_psrp_message` raises `KeyError` (from `_msg_type_name` inside
the debug-log call, psrp.py lines 57-60 and 65-73) before the callback is
invoked.  Concrete counterexample: a 40-byte message with type code
`0x99999999`. -/
theorem c5_unknown_type_counterexample :
    new_psrp_message ([1, 0, 0, 0, 0x99, 0x99, 0x99, 0x99] ++ List.replicate 32 0) =
      Except.error "KeyError" := by
  rfl

/-- Claim C5 (amended): for every message of at least 40 bytes whose
message-type code is not in the 31-entry registry, `new_psrp_message` raises
`KeyError` (and therefore never invokes the callback); the exception is only
contained by the SOAP-layer catch-all. -/
theorem c5_unknown_type_raises (message : Bytes)
    (h1 : 40 ≤ message.length)
    (h2 : msg_type_name (leU32 ((message.drop 4).take 4)) = none) :
    new_psrp_message message = Except.error "KeyError" := by
  unfold new_psrp_message
  rw [if_neg (by omega)]
  simp only [h2]

/-- Witness for `c5_unknown_type_raises` at a concrete unknown type `0x77`. -/
theorem c5_unknown_type_raises_witness :
    40 ≤ (List.replicate 40 0x77 : Bytes).length ∧
    msg_type_name (leU32 (((List.replicate 40 0x77 : Bytes).drop 4).take 4)) = none ∧
    new_psrp_message (List.replicate 40 0x77) = Except.error "KeyError" :=
  ⟨by decide, by decide, c5_unknown_type_raises (List.replicate 40 0x77) (by decide) (by decide)⟩

/-! ## Claim C7 -/

/-- Claim C7 (confirmed): a chunk event whose 1-based index is not
`last_chunk + 1` for its `(activity_id, pid, tid)` key makes
`SoapDefragmenter.new_event` abandon and remove that key's assembly, invoke
no downstream callback, and leave every other key's assembly unchanged.
(For a key with no assembly yet, the freshly created record has
`last_chunk = 0`, so the expected index is 1.) -/
theorem c7_soap_out_of_order_drops_key (st : SoapKey → Option SoapAssembly) (e : SoapEvent)
    (h : e.index ≠ (match st (e.activity_id, e.pid, e.tid) with
                    | some a => a.last_chunk + 1
                    | none => 1)) :
    (soap_new_event st e).2 = none ∧
    (soap_new_event st e).1 (e.activity_id, e.pid, e.tid) = none ∧
    ∀ k, k ≠ (e.activity_id, e.pid, e.tid) → (soap_new_event st e).1 k = st k := by
  unfold soap_new_event
  have hcond : e.index ≠
      (match st (e.activity_id, e.pid, e.tid) with
        | some a => a
        | none =>
          { total_chunks := e.totalChunks, last_chunk := 0, pid := e.pid, tid := e.tid,
            soap := "" }).last_chunk + 1 := by
    rcases hst : st (e.activity_id, e.pid, e.tid) with _ | a
    · rw [hst] at h
      simpa using h
    · rw [hst] at h
      simpa using h
  rw [if_pos hcond]
  refine ⟨rfl, fupd_same _ _ _, fun k hk => fupd_ne _ _ _ _ hk⟩

/-- Witness for `c7_soap_out_of_order_drops_key`: a first chunk with index 2
on an empty defragmenter. -/
theorem c7_soap_out_of_order_drops_key_witness :
    ((2 : Nat) ≠ (match (fun _ => none : SoapKey → Option SoapAssembly) ((none : Option String), 100, 200) with
      | some a => a.last_chunk + 1
      | none => 1)) ∧
    (soap_new_event (fun _ => none)
      { activity_id := none, pid := 100, tid := 200, totalChunks := 3, index := 2,
        soapDocument := "hi" }).2 = none :=
  ⟨by decide,
   (c7_soap_out_of_order_drops_key (fun _ => none)
      { activity_id := none, pid := 100, tid := 200, totalChunks := 3, index := 2,
        soapDocument := "hi" } (by decide)).1⟩

/-! ## Claim C8 -/

/-- Claim C8 (confirmed): the XPRESS stream decompressor reads a 4-byte
little-endian header of two u16 fields, adds one to each, consumes
`compressed_size` body bytes, and appends the body verbatim when the
corrected sizes agree — for every external decompression primitive `d`,
the scenario-S5 input `04 00 04 00 41 42 43 44 45` yields exactly `ABCDE`
with no input remaining, and a two-block stream is framed the same way
block after block. -/
theorem c8_xpress_verbatim_framing (d : Bytes → Nat → Bytes) :
    decompress_stream_data true d [4, 0, 4, 0, 0x41, 0x42, 0x43, 0x44, 0x45] =
      Except.ok [0x41, 0x42, 0x43, 0x44, 0x45] ∧
    decompress_stream_data true d [0, 0, 0, 0, 0x41, 0, 0, 0, 0, 0x42] =
      Except.ok [0x41, 0x42] := by
  exact ⟨rfl, rfl⟩

/-! ## Claim C10 -/

theorem new_fragment_data_loop_nil {ι γ : Type} [DecidableEq ι] (fuel : Nat) (bufs : BufMap ι γ)
    (ident : ι) (cmd : Option γ) :
    new_fragment_data_loop fuel bufs ident cmd [] = (bufs, [], false) := by
  cases fuel <;> rfl

/-- Claim C10 (confirmed): in `_new_fragment_data`, a fragment header that
declares a length larger than the bytes remaining after the 21-byte header
makes the loop append only the bytes actually present (the payload slice
silently truncates to `data.drop 21`) and terminate without signalling an
error, whereas a non-empty tail shorter than 21 bytes makes header parsing
raise (`struct.error`) instead of being skipped. -/
theorem c10_truncated_payload_and_short_header {ι μ γ : Type} [DecidableEq ι]
    (st : DefragState ι μ γ) (shell_id : ι) (data : Bytes) (cmd : Option γ) :
    (21 ≤ data.length → data.length - 21 < beU32 ((data.drop 17).take 4) →
      new_fragment_data st shell_id data cmd =
        (let r := append_frag_data st.shell_bufs shell_id (beI64 (data.take 8))
            (beI64 ((data.drop 8).take 8))
            ((((data.drop 16).headD 0) &&& 1) != 0) ((((data.drop 16).headD 0) &&& 2) != 0)
            (data.drop 21) cmd
         ({ st with shell_bufs := r.1 },
          (match r.2 with | some t => [(shell_id, t.1, t.2.1, t.2.2)] | none => []),
          false))) ∧
    (0 < data.length → data.length < 21 →
      new_fragment_data st shell_id data cmd = (st, [], true)) := by
  constructor
  · intro h1 h2
    rcases data with _ | ⟨b, bs⟩
    · simp at h1
    · have hlen : 21 ≤ bs.length + 1 := by simpa using h1
      have hfl : bs.length + 1 - 21 < beU32 (((b :: bs).drop 17).take 4) := by
        simpa using h2
      have htake : ((b :: bs).drop 21).take (beU32 (((b :: bs).drop 17).take 4)) =
          (b :: bs).drop 21 := by
        apply List.take_of_length_le
        simp only [List.length_drop, List.length_cons]
        omega
      have hdrop : (b :: bs).drop (21 + beU32 (((b :: bs).drop 17).take 4)) = [] := by
        apply List.drop_eq_nil_of_le
        simp only [List.length_cons]
        omega
      simp only [new_fragment_data, List.length_cons, new_fragment_data_loop]
      rw [if_neg (by omega)]
      rw [htake, hdrop, new_fragment_data_loop_nil]
      rcases hr : (append_frag_data st.shell_bufs shell_id (beI64 ((b :: bs).take 8))
          (beI64 (((b :: bs).drop 8).take 8))
          ((((b :: bs).drop 16).headD 0) &&& 1 != 0) ((((b :: bs).drop 16).headD 0) &&& 2 != 0)
          ((b :: bs).drop 21) cmd).2 with _ | t
      · simp [hr]
      · simp [hr]
  · intro h1 h2
    rcases data with _ | ⟨b, bs⟩
    · simp at h1
    · have h2' : bs.length + 1 < 21 := by simpa using h2
      simp only [new_fragment_data, List.length_cons, new_fragment_data_loop]
      rw [if_pos (by omega)]
      rfl

/-- Witness for `c10_truncated_payload_and_short_header`: a 23-byte stream
whose single header declares 5 payload bytes with only 2 present (delivered
truncated, no error), and a 3-byte stream (header parse raises). -/
theorem c10_truncated_payload_and_short_header_witness :
    (21 ≤ ((List.replicate 16 0 ++ [2, 0, 0, 0, 5, 9, 9]) : Bytes).length ∧
     ((List.replicate 16 0 ++ [2, 0, 0, 0, 5, 9, 9]) : Bytes).length - 21 <
       beU32 ((((List.replicate 16 0 ++ [2, 0, 0, 0, 5, 9, 9]) : Bytes).drop 17).take 4) ∧
     (new_fragment_data (emptyDefrag Nat Nat Nat) 1
        (List.replicate 16 0 ++ [2, 0, 0, 0, 5, 9, 9]) (none : Option Nat)).2 =
       ([(1, 0, [9, 9], none)], false)) ∧
    (0 < ([1, 2, 3] : Bytes).length ∧ ([1, 2, 3] : Bytes).length < 21 ∧
     new_fragment_data (emptyDefrag Nat Nat Nat) 1 [1, 2, 3] (none : Option Nat) =
       (emptyDefrag Nat Nat Nat, [], true)) :=
  ⟨⟨by decide, by decide,
    congrArg (fun p => p.2)
      ((c10_truncated_payload_and_short_header (emptyDefrag Nat Nat Nat) 1
        (List.replicate 16 0 ++ [2, 0, 0, 0, 5, 9, 9]) none).1 (by decide) (by decide))⟩,
   ⟨by decide, by decide,
    (c10_truncated_payload_and_short_header (emptyDefrag Nat Nat Nat) 1 [1, 2, 3] none).2
      (by decide) (by decide)⟩⟩

/-! ## Claim C6 -/

/-- Claim C6 counterexample: the claim says an envelope with a tracked
`ShellId` is routed even when its header `ResourceURI` is present and not the
PowerShell URI.  In the source, `new_soap` drops any envelope with a present
non-PowerShell `ResourceURI` before any handler runs (winrm.py lines
123-130): with shell `S` tracked, a Delete for `S` with `ResourceURI`
`http://example.invalid/other-resource` is ignored — no handler is invoked
and `delete_msgs` stays empty. -/
theorem c6_tracked_shell_not_routed_counterexample :
    (new_soap dummyDecomp c6_st c6_doc).2.2 = none ∧
    (new_soap dummyDecomp c6_st c6_doc).1.delete_msgs = [] := by
  constructor <;> rfl

/-- Claim C6 (amended): for an envelope whose Action is in the dispatch
table, being routed to a handler is equivalent to the header `ResourceURI`
being absent or equal to the PowerShell URI; a tracked `ShellId` (or
`RelatesTo`) never overrides a present non-PowerShell `ResourceURI`.  (The
ShellId/RelatesTo correlation of `_known_shell_id_or_resource_uri` only
decides relevance inside handlers, after this gate.) -/
theorem c6_routing_characterisation (d : Bytes → Nat → Bytes) (st : WState) (doc : SoapDoc)
    (act : String)
    (h1 : doc.hasHeader = true) (h2 : doc.action = some act)
    (h3 : ps_actions.contains act = true) :
    ((new_soap d st doc).2.2 = some act ↔
      (doc.resource_uri = none ∨ doc.resource_uri = some PS_RESOURCE_URI)) := by
  have h3' : act ∈ ps_actions := by simpa using h3
  rcases hru : doc.resource_uri with _ | uri
  · simp [new_soap, h1, h2, h3', hru]
  · by_cases hu : uri = PS_RESOURCE_URI
    · simp [new_soap, h1, h2, h3', hru, hu]
    · simp [new_soap, h1, h2, h3', hru, hu]

/-- Witness for `c6_routing_characterisation` at a Signal envelope without a
`ResourceURI`. -/
theorem c6_routing_characterisation_witness :
    c6w_doc.hasHeader = true ∧ c6w_doc.action = some uriSignal ∧
    ps_actions.contains uriSignal = true ∧
    ((new_soap dummyDecomp c6_st c6w_doc).2.2 = some uriSignal ↔
      (c6w_doc.resource_uri = none ∨ c6w_doc.resource_uri = some PS_RESOURCE_URI)) :=
  ⟨rfl, rfl, by decide,
   c6_routing_characterisation dummyDecomp c6_st c6w_doc uriSignal rfl rfl (by decide)⟩

/-! ## Claim C3 -/

theorem process_streams_no_libwim (d : Bytes → Nat → Bytes) (dfs : WDefrag) (sid : String)
    (streams : List StreamElem)
    (h : streams.any (fun se => se.blob != B64.bad) = true) :
    process_streams d false dfs sid streams = (dfs, [], true) := by
  induction streams with
  | nil => simp at h
  | cons se rest ih =>
    rcases hb : se.blob with _ | _ | bs
    · simp [process_streams, hb]
    · have h' : rest.any (fun se => se.blob != B64.bad) = true := by
        simpa [List.any_cons, hb] using h
      simp [process_streams, hb, ih h']
    · simp [process_streams, hb, decompress_stream_data]

/-- Claim C3 counterexample: with the decompressor unavailable, a
ReceiveResponse carrying a Done command state for `C` and two decodable
streams leaves `commands` untouched (the claim says `C` is removed) and
feeds nothing downstream — the first decompression attempt raises and aborts
the whole envelope. -/
theorem c3_envelope_aborted_counterexample :
    (new_soap dummyDecomp c3_st c3_doc).1.commands = [("C", "S")] ∧
    (new_soap dummyDecomp c3_st c3_doc).2.1 = [] := by
  constructor <;> rfl

/-- Claim C3 (amended): when the decompressor is unavailable, a
ReceiveResponse that matches a tracked Receive and has at least one stream
whose text decodes (or is missing) aborts at that stream: no stream of the
envelope is fed to the defragmenter, nothing is delivered, and the commands
marked finished are not removed from the commands table (only the matched
Receive tracking entry is consumed). -/
theorem c3_missing_decompressor_aborts_envelope (d : Bytes → Nat → Bytes) (st : WState)
    (doc : SoapDoc) (rtv sid : String)
    (h1 : doc.relates_to = some rtv)
    (h2 : dlookup st.receive_msgs (some rtv) = some sid)
    (h3 : st.libwim = false)
    (h4 : doc.streams.any (fun se => se.blob != B64.bad) = true) :
    action_receive_response d st doc =
      ({ st with receive_msgs := dremove st.receive_msgs (some rtv) }, [], true) := by
  simp only [action_receive_response, h1, h2, h3]
  rw [process_streams_no_libwim d _ _ _ h4]
  rfl

/-- Witness for `c3_missing_decompressor_aborts_envelope` at the concrete
state and envelope of the counterexample. -/
theorem c3_missing_decompressor_aborts_envelope_witness :
    c3_doc.relates_to = some "M2" ∧
    dlookup c3_st.receive_msgs (some "M2") = some "S" ∧
    c3_st.libwim = false ∧
    c3_doc.streams.any (fun se => se.blob != B64.bad) = true ∧
    action_receive_response dummyDecomp c3_st c3_doc =
      ({ c3_st with receive_msgs := dremove c3_st.receive_msgs (some "M2") }, [], true) :=
  ⟨rfl, rfl, rfl, by decide,
   c3_missing_decompressor_aborts_envelope dummyDecomp c3_st c3_doc "M2" "S" rfl rfl rfl
     (by decide)⟩

/-! ## Claim C9 -/

/-- Claim C9 (confirmed): starting from a dispatcher tracking shell `S` (with
a tracked Receive `M2`), a Command request with `MessageId = M1` records
`command_msgs[M1] = S`; the CommandResponse with `RelatesTo = M1` and
`CommandId = C` empties `command_msgs` and records `commands[C] = S`; the
ReceiveResponse matching `M2` whose command state for `C` is Done removes
`C`, leaving both tables empty. -/
theorem c9_command_lifecycle :
    c9_st1.command_msgs = [(some "M1", "S")] ∧
    c9_st2.command_msgs = [] ∧ c9_st2.commands = [("C", "S")] ∧
    c9_st3.commands = [] ∧ c9_st3.command_msgs = [] :=
  ⟨rfl, rfl, rfl, rfl, rfl⟩

/-! ## Claim C4 -/

theorem buf0_of_fupd_some {γ : Type} (om : ObjMap γ) (o : Int) (b : ObjBuf γ) :
    buf0_of (some (fupd om o (some b))) o = b := by
  simp [buf0_of, map_of, fupd]

theorem buf0_of_fupd_none {γ : Type} (om : ObjMap γ) (o : Int) :
    buf0_of (some (fupd om o none)) o =
      { last_fragment_id := -1, buffer := [], command_id := none } := by
  simp [buf0_of, map_of, fupd]

theorem buf0_of_fupd_ne {γ : Type} (om : ObjMap γ) (o o2 : Int) (v : Option (ObjBuf γ))
    (h : o2 ≠ o) : buf0_of (some (fupd om o v)) o2 = buf0_of (some om) o2 := by
  simp [buf0_of, map_of, fupd, h]

theorem buf0_of_map_of {γ : Type} (om0 : Option (ObjMap γ)) (o : Int) :
    buf0_of (some (map_of om0)) o = buf0_of om0 o := by
  cases om0 <;> rfl

/-- `_append_frag_data` on one slot, phrased through the
`(last_fragment_id, buffer)` view it consults. -/
theorem append_frag_obj_spec {γ : Type} (om0 : Option (ObjMap γ)) (oid fid : Int)
    (s e : Bool) (data : Bytes) (cmd : Option γ) :
    append_frag_obj om0 oid fid s e data cmd =
      (if (obj_core om0 oid).1 + 1 ≠ fid then
         (fupd (map_of om0) oid
            (some (ObjBuf.mk (obj_core om0 oid).1 (obj_core om0 oid).2 cmd)), none)
       else if e then
         (fupd (map_of om0) oid none, some (oid, (obj_core om0 oid).2 ++ data, cmd))
       else
         (fupd (map_of om0) oid
            (some (ObjBuf.mk (obj_core om0 oid).1 ((obj_core om0 oid).2 ++ data) cmd)),
          none)) := rfl

theorem append_frag_obj_delivery {γ : Type} (om0 : Option (ObjMap γ)) (oid fid : Int)
    (s e : Bool) (data : Bytes) (cmd : Option γ) :
    (append_frag_obj om0 oid fid s e data cmd).2 =
      if (obj_core om0 oid).1 + 1 ≠ fid then none
      else if e then some (oid, (obj_core om0 oid).2 ++ data, cmd) else none := by
  rw [append_frag_obj_spec]
  split_ifs <;> rfl

theorem obj_core_append {γ : Type} (om0 : Option (ObjMap γ)) (oid fid : Int)
    (s e : Bool) (data : Bytes) (cmd : Option γ) (o : Int) :
    obj_core (some (append_frag_obj om0 oid fid s e data cmd).1) o =
      if o = oid then
        (if (obj_core om0 oid).1 + 1 ≠ fid then obj_core om0 oid
         else if e then (-1, [])
         else ((obj_core om0 oid).1, (obj_core om0 oid).2 ++ data))
      else obj_core om0 o := by
  rw [append_frag_obj_spec]
  by_cases ho : o = oid
  · subst ho
    rw [if_pos rfl]
    by_cases h1 : (obj_core om0 o).1 + 1 ≠ fid
    · rw [if_pos h1, if_pos h1]
      simp [obj_core, buf0_of_fupd_some]
    · rw [if_neg h1, if_neg h1]
      by_cases he : e = true
      · rw [if_pos he, if_pos he]
        simp [obj_core, buf0_of_fupd_none]
      · rw [if_neg he, if_neg he]
        simp [obj_core, buf0_of_fupd_some]
  · rw [if_neg ho]
    by_cases h1 : (obj_core om0 oid).1 + 1 ≠ fid
    · rw [if_pos h1]
      simp [obj_core, buf0_of_fupd_ne _ _ _ _ ho, buf0_of_map_of]
    · rw [if_neg h1]
      by_cases he : e = true
      · rw [if_pos he]
        simp [obj_core, buf0_of_fupd_ne _ _ _ _ ho, buf0_of_map_of]
      · rw [if_neg he]
        simp [obj_core, buf0_of_fupd_ne _ _ _ _ ho, buf0_of_map_of]

/-- The state-level effect of one known-shell fragment append. -/
theorem append_frag_shell_slot {ι μ γ : Type} [DecidableEq ι] (st : DefragState ι μ γ)
    (s : ι) (f : Frag γ) :
    (append_frag_shell st s f).1.shell_bufs s =
      some (append_frag_obj (st.shell_bufs s) f.object_id f.fragment_id f.s_flag f.e_flag
        f.frag_data f.command_id).1 ∧
    (∀ j, j ≠ s → (append_frag_shell st s f).1.shell_bufs j = st.shell_bufs j) ∧
    (append_frag_shell st s f).1.pending_shell_bufs = st.pending_shell_bufs ∧
    (append_frag_shell st s f).1.pending_shell_completed_messages =
      st.pending_shell_completed_messages ∧
    (append_frag_shell st s f).2 =
      (append_frag_obj (st.shell_bufs s) f.object_id f.fragment_id f.s_flag f.e_flag
        f.frag_data f.command_id).2.map (fun t => (s, t.1, t.2.1, t.2.2)) := by
  refine ⟨?_, ?_, rfl, rfl, rfl⟩
  · simp [append_frag_shell, append_frag_data, fupd]
  · intro j hj
    simp [append_frag_shell, append_frag_data, fupd, hj]

/-- Core-indistinguishable states produce identical known-shell deliveries
and stay core-indistinguishable under one known-shell append. -/
theorem append_frag_shell_congr {ι μ γ : Type} [DecidableEq ι] (st1 st2 : DefragState ι μ γ)
    (h : core_equiv st1 st2) (s : ι) (f : Frag γ) :
    (append_frag_shell st1 s f).2 = (append_frag_shell st2 s f).2 ∧
    core_equiv (append_frag_shell st1 s f).1 (append_frag_shell st2 s f).1 := by
  obtain ⟨hc, hp, hm⟩ := h
  obtain ⟨slot1, ne1, p1, m1, d1⟩ := append_frag_shell_slot st1 s f
  obtain ⟨slot2, ne2, p2, m2, d2⟩ := append_frag_shell_slot st2 s f
  constructor
  · rw [d1, d2, append_frag_obj_delivery, append_frag_obj_delivery, hc s f.object_id]
  · refine ⟨fun i o => ?_, by rw [p1, p2, hp], by rw [m1, m2, hm]⟩
    by_cases hi : i = s
    · subst hi
      rw [slot1, slot2, obj_core_append, obj_core_append, hc i f.object_id, hc i o]
    · rw [ne1 i hi, ne2 i hi]
      exact hc i o

/-- One pending-shell fragment append preserves core-indistinguishability. -/
theorem append_frag_pending_congr {ι μ γ : Type} [DecidableEq μ] (st1 st2 : DefragState ι μ γ)
    (h : core_equiv st1 st2) (m : μ) (f : Frag γ) :
    core_equiv (append_frag_pending st1 m f) (append_frag_pending st2 m f) := by
  obtain ⟨hc, hp, hm⟩ := h
  unfold append_frag_pending
  rw [hp, hm]
  cases hR : (append_frag_data st2.pending_shell_bufs m f.object_id f.fragment_id f.s_flag
      f.e_flag f.frag_data f.command_id).2 with
  | none =>
    simp only [hR]
    exact ⟨hc, rfl, rfl⟩
  | some t =>
    simp only [hR]
    exact ⟨hc, rfl, rfl⟩

/-- Core-indistinguishable states deliver the same messages under any
sequence of fragment insertions. -/
theorem apply_feeds_congr {ι μ γ : Type} [DecidableEq ι] [DecidableEq μ]
    (ops : List (FeedOp ι μ γ)) (st1 st2 : DefragState ι μ γ) (h : core_equiv st1 st2) :
    (apply_feeds st1 ops).2 = (apply_feeds st2 ops).2 ∧
    core_equiv (apply_feeds st1 ops).1 (apply_feeds st2 ops).1 := by
  induction ops generalizing st1 st2 with
  | nil => exact ⟨rfl, h⟩
  | cons op ops ih =>
    cases op with
    | known s f =>
      obtain ⟨hd, hs⟩ := append_frag_shell_congr st1 st2 h s f
      obtain ⟨ihd, ihs⟩ := ih _ _ hs
      refine ⟨?_, ihs⟩
      simp only [apply_feeds, hd, ihd]
    | pending m f =>
      exact ih _ _ (append_frag_pending_congr st1 st2 h m f)

/-- An out-of-order append delivers nothing and leaves the state
core-indistinguishable from before. -/
theorem append_frag_shell_reject {ι μ γ : Type} [DecidableEq ι] (st : DefragState ι μ γ)
    (s : ι) (f : Frag γ)
    (h : f.fragment_id ≠ (obj_core (st.shell_bufs s) f.object_id).1 + 1) :
    (append_frag_shell st s f).2 = none ∧ core_equiv (append_frag_shell st s f).1 st := by
  obtain ⟨slot, ne, p, m, d⟩ := append_frag_shell_slot st s f
  have hcond : (obj_core (st.shell_bufs s) f.object_id).1 + 1 ≠ f.fragment_id :=
    fun hh => h hh.symm
  constructor
  · rw [d, append_frag_obj_delivery, if_pos hcond]
    rfl
  · refine ⟨fun i o => ?_, p, m⟩
    by_cases hi : i = s
    · subst hi
      rw [slot, obj_core_append]
      by_cases ho : o = f.object_id
      · rw [if_pos ho, if_pos hcond, ho]
      · rw [if_neg ho]
    · rw [ne i hi]

/-- Claim C4 (amended): inserting a fragment whose id is not
`last_fragment_id + 1` emits nothing itself and never changes the messages
delivered by any subsequent sequence of fragment insertions (known-shell or
pending-shell).  The insert does mutate tracking state — it can register the
shell, create an empty object buffer and overwrite the buffered
`command_id` — and a registered shell changes the behaviour of a later
`set_pending_shell_id`, which is why the claim as stated over *all*
subsequent operations fails (see the counterexample). -/
theorem c4_out_of_order_fragment_frame {ι μ γ : Type} [DecidableEq ι] [DecidableEq μ]
    (st : DefragState ι μ γ) (s : ι) (f : Frag γ) (ops : List (FeedOp ι μ γ))
    (h : f.fragment_id ≠ (obj_core (st.shell_bufs s) f.object_id).1 + 1) :
    (append_frag_shell st s f).2 = none ∧
    (apply_feeds (append_frag_shell st s f).1 ops).2 = (apply_feeds st ops).2 :=
  ⟨(append_frag_shell_reject st s f h).1,
   (apply_feeds_congr ops _ _ (append_frag_shell_reject st s f h).2).1⟩

/-- Witness for `c4_out_of_order_fragment_frame`: inserting fragment 7 into
an untracked shell, then completing a fresh object. -/
theorem c4_out_of_order_fragment_frame_witness :
    ((7 : Int) ≠ (obj_core ((emptyDefrag Nat Nat Nat).shell_bufs 5) 2).1 + 1) ∧
    (append_frag_shell (emptyDefrag Nat Nat Nat) 5 c4_out_of_order_frag).2 = none ∧
    (apply_feeds (append_frag_shell (emptyDefrag Nat Nat Nat) 5 c4_out_of_order_frag).1
        [FeedOp.known 5 c4_final_frag]).2 =
      (apply_feeds (emptyDefrag Nat Nat Nat) [FeedOp.known 5 c4_final_frag]).2 :=
  ⟨by decide,
   (c4_out_of_order_fragment_frame (emptyDefrag Nat Nat Nat) 5 c4_out_of_order_frag
      [FeedOp.known 5 c4_final_frag] (by decide)).1,
   (c4_out_of_order_fragment_frame (emptyDefrag Nat Nat Nat) 5 c4_out_of_order_frag
      [FeedOp.known 5 c4_final_frag] (by decide)).2⟩

/-- Claim C4 counterexample: with `set_pending_shell_id` among the subsequent
operations the claim fails — the rejected out-of-order fragment registered
`shell_bufs[5]`, so the promotion of pending shell 0 to shell 5 discards the
pending buffers, and the finishing fragment then delivers `[2]` instead of
`[1, 2]`. -/
theorem c4_out_of_order_changes_deliveries_counterexample :
    c4_with_insert ≠ c4_without_insert := by
  decide

/-! ## Claim C2 -/

theorem run_frags_obj_some {γ : Type} (L : List (Frag γ)) (om : ObjMap γ) :
    ∃ om2, (run_frags_obj (some om) L).1 = some om2 := by
  induction L generalizing om with
  | nil => exact ⟨om, rfl⟩
  | cons f L ih =>
    exact ih (append_frag_obj (some om) f.object_id f.fragment_id f.s_flag f.e_flag
      f.frag_data f.command_id).1

/-- The state-level effect of one pending-shell fragment append. -/
theorem append_frag_pending_slot {ι μ γ : Type} [DecidableEq μ] (st : DefragState ι μ γ)
    (m : μ) (f : Frag γ) :
    (append_frag_pending st m f).pending_shell_bufs m =
      some (append_frag_obj (st.pending_shell_bufs m) f.object_id f.fragment_id f.s_flag
        f.e_flag f.frag_data f.command_id).1 ∧
    (∀ j, j ≠ m → (append_frag_pending st m f).pending_shell_bufs j =
      st.pending_shell_bufs j) ∧
    (append_frag_pending st m f).shell_bufs = st.shell_bufs ∧
    (∀ j, (append_frag_pending st m f).pending_shell_completed_messages j =
      if j = m then
        (match (append_frag_obj (st.pending_shell_bufs m) f.object_id f.fragment_id f.s_flag
            f.e_flag f.frag_data f.command_id).2 with
         | none => st.pending_shell_completed_messages m
         | some t => some ((st.pending_shell_completed_messages m).getD [] ++ [t]))
      else st.pending_shell_completed_messages j) := by
  cases hq : (append_frag_obj (st.pending_shell_bufs m) f.object_id f.fragment_id f.s_flag
      f.e_flag f.frag_data f.command_id).2 with
  | none =>
    refine ⟨?_, ?_, ?_, fun j => ?_⟩
    · simp [append_frag_pending, append_frag_data, hq, fupd]
    · intro j hj
      simp [append_frag_pending, append_frag_data, hq, fupd, hj]
    · simp [append_frag_pending, append_frag_data, hq]
    · by_cases hj : j = m <;>
        simp [append_frag_pending, append_frag_data, hq, fupd, hj]
  | some t =>
    refine ⟨?_, ?_, ?_, fun j => ?_⟩
    · simp [append_frag_pending, append_frag_data, hq, fupd]
    · intro j hj
      simp [append_frag_pending, append_frag_data, hq, fupd, hj]
    · simp [append_frag_pending, append_frag_data, hq]
    · by_cases hj : j = m <;>
        simp [append_frag_pending, append_frag_data, hq, fupd, hj]

/-- Feeding a fragment list to a known shell touches only that shell's slot;
the slot and the delivered messages are the slot-local run. -/
theorem feed_shell_frags_spec {ι μ γ : Type} [DecidableEq ι] (L : List (Frag γ))
    (st : DefragState ι μ γ) (s : ι) :
    (∀ j, (feed_shell_frags st s L).1.shell_bufs j =
        if j = s then (run_frags_obj (st.shell_bufs s) L).1 else st.shell_bufs j) ∧
    (feed_shell_frags st s L).1.pending_shell_bufs = st.pending_shell_bufs ∧
    (feed_shell_frags st s L).1.pending_shell_completed_messages =
      st.pending_shell_completed_messages ∧
    (feed_shell_frags st s L).2 =
      (run_frags_obj (st.shell_bufs s) L).2.map (fun t => (s, t.1, t.2.1, t.2.2)) := by
  induction L generalizing st with
  | nil =>
    refine ⟨fun j => ?_, rfl, rfl, rfl⟩
    by_cases hj : j = s <;> simp [feed_shell_frags, run_frags_obj, hj]
  | cons f L ih =>
    obtain ⟨slot1, ne1, p1, m1, d1⟩ := append_frag_shell_slot st s f
    obtain ⟨ih1, ih2, ih3, ih4⟩ := ih (append_frag_shell st s f).1
    have hfst : (feed_shell_frags st s (f :: L)).1 =
        (feed_shell_frags (append_frag_shell st s f).1 s L).1 := rfl
    refine ⟨fun j => ?_, ?_, ?_, ?_⟩
    · rw [hfst, ih1 j]
      by_cases hj : j = s
      · subst hj
        rw [if_pos rfl, if_pos rfl, slot1]
        simp [run_frags_obj]
      · rw [if_neg hj, if_neg hj, ne1 j hj]
    · rw [hfst, ih2, p1]
    · rw [hfst, ih3, m1]
    · have hsnd : (feed_shell_frags st s (f :: L)).2 =
          (match (append_frag_shell st s f).2 with | some d0 => [d0] | none => []) ++
          (feed_shell_frags (append_frag_shell st s f).1 s L).2 := rfl
      rw [hsnd, d1, ih4, slot1]
      cases hq : (append_frag_obj (st.shell_bufs s) f.object_id f.fragment_id f.s_flag
          f.e_flag f.frag_data f.command_id).2 with
      | none => simp [run_frags_obj, hq]
      | some t => simp [run_frags_obj, hq]

/-- Feeding a fragment list to a pending shell touches only that shell's
pending slot; completions accumulate in the stash in order. -/
theorem feed_pending_frags_spec {ι μ γ : Type} [DecidableEq μ] (L : List (Frag γ))
    (st : DefragState ι μ γ) (m : μ) :
    (∀ j, (feed_pending_frags st m L).pending_shell_bufs j =
        if j = m then (run_frags_obj (st.pending_shell_bufs m) L).1
        else st.pending_shell_bufs j) ∧
    (feed_pending_frags st m L).shell_bufs = st.shell_bufs ∧
    (∀ j, (feed_pending_frags st m L).pending_shell_completed_messages j =
        if j = m then
          (match (run_frags_obj (st.pending_shell_bufs m) L).2 with
           | [] => st.pending_shell_completed_messages m
           | T => some ((st.pending_shell_completed_messages m).getD [] ++ T))
        else st.pending_shell_completed_messages j) := by
  induction L generalizing st with
  | nil =>
    refine ⟨fun j => ?_, rfl, fun j => ?_⟩
    · by_cases hj : j = m <;> simp [feed_pending_frags, run_frags_obj, hj]
    · by_cases hj : j = m <;> simp [feed_pending_frags, run_frags_obj, hj]
  | cons f L ih =>
    obtain ⟨slot1, ne1, sh1, st1⟩ := append_frag_pending_slot st m f
    obtain ⟨ih1, ih2, ih3⟩ := ih (append_frag_pending st m f)
    have hfst : feed_pending_frags st m (f :: L) =
        feed_pending_frags (append_frag_pending st m f) m L := rfl
    refine ⟨fun j => ?_, ?_, fun j => ?_⟩
    · rw [hfst, ih1 j]
      by_cases hj : j = m
      · rw [if_pos hj, if_pos hj, slot1]
        simp [run_frags_obj]
      · rw [if_neg hj, if_neg hj, ne1 j hj]
    · rw [hfst, ih2, sh1]
    · rw [hfst, ih3 j]
      by_cases hj : j = m
      · rw [if_pos hj, if_pos hj, st1 m, if_pos rfl, slot1]
        cases hq : (append_frag_obj (st.pending_shell_bufs m) f.object_id f.fragment_id
            f.s_flag f.e_flag f.frag_data f.command_id).2 with
        | none => simp [run_frags_obj, hq]
        | some t =>
          simp only [run_frags_obj, hq]
          cases hT : (run_frags_obj
              (some (append_frag_obj (st.pending_shell_bufs m) f.object_id f.fragment_id
                f.s_flag f.e_flag f.frag_data f.command_id).1) L).2 with
          | nil => simp
          | cons a T2 => simp [List.append_assoc]
      · rw [if_neg hj, if_neg hj, st1 j, if_neg hj]

/-- `set_pending_shell_id` on a tracked pending shell whose target shell is
not yet registered. -/
theorem set_pending_shell_id_spec {ι μ γ : Type} [DecidableEq ι] [DecidableEq μ]
    (st : DefragState ι μ γ) (m : μ) (s : ι) (om : ObjMap γ)
    (h : st.pending_shell_bufs m = some om) (hsh : st.shell_bufs s = none) :
    set_pending_shell_id st m s =
      ({ shell_bufs := fupd st.shell_bufs s (some om)
         pending_shell_bufs := fupd st.pending_shell_bufs m none
         pending_shell_completed_messages :=
           fupd st.pending_shell_completed_messages m none },
       (match st.pending_shell_completed_messages m with
        | some l => l.map (fun t => (s, t.1, t.2.1, t.2.2))
        | none => []),
       (st.pending_shell_completed_messages m).isNone) := by
  unfold set_pending_shell_id
  rw [h, hsh]
  rfl

/-- Claim C2 (confirmed): for a pending shell opened fresh under `m` and fed
fragments `L`, with the real shell id `s` not yet tracked,
`set_pending_shell_id m s` delivers exactly the messages that completed
before promotion to the real callback under `s`, in insertion order, and the
whole run — promotion flush plus any fragments `L2` subsequently fed under
`s` — delivers exactly what registering `s` from the start and feeding `L`
then `L2` directly would deliver.  (The claim's in-order proviso is carried
as a hypothesis; the equivalence holds for arbitrary `L`.) -/
theorem c2_promote_pending_refinement {ι μ γ : Type} [DecidableEq ι] [DecidableEq μ]
    (st : DefragState ι μ γ) (m : μ) (s : ι) (L L2 : List (Frag γ))
    (hpb : st.pending_shell_bufs m = none)
    (hpc : st.pending_shell_completed_messages m = none)
    (hs : st.shell_bufs s = none)
    (_hord : in_order_frags L = true) :
    pending_promote_run st m s L L2 = direct_run st s L L2 := by
  have hA1 : new_pending_shell st m =
      { st with pending_shell_bufs := fupd st.pending_shell_bufs m (some (fun _ => none)) } := by
    unfold new_pending_shell
    rw [hpb]
    rfl
  have hB1 : new_shell st s =
      { st with shell_bufs := fupd st.shell_bufs s (some (fun _ => none)) } := by
    unfold new_shell
    rw [hs]
    rfl
  obtain ⟨pA, shA, stA⟩ := feed_pending_frags_spec L (new_pending_shell st m) m
  obtain ⟨sB, pB, mB, dB⟩ := feed_shell_frags_spec L (new_shell st s) s
  have hstartA : (new_pending_shell st m).pending_shell_bufs m = some (fun _ => none) := by
    rw [hA1]
    exact fupd_same _ _ _
  have hstartB : (new_shell st s).shell_bufs s = some (fun _ => none) := by
    rw [hB1]
    exact fupd_same _ _ _
  rw [hstartA] at pA stA
  rw [hstartB] at sB dB
  obtain ⟨omA, homA⟩ := run_frags_obj_some L (fun _ => none)
  have hscr : (feed_pending_frags (new_pending_shell st m) m L).pending_shell_bufs m =
      some omA := by
    rw [pA m, if_pos rfl, homA]
  have hshp : (feed_pending_frags (new_pending_shell st m) m L).shell_bufs s = none := by
    rw [shA, hA1]
    exact hs
  have hsp := set_pending_shell_id_spec _ m s omA hscr hshp
  have hstash :
      (feed_pending_frags (new_pending_shell st m) m L).pending_shell_completed_messages m =
      (match (run_frags_obj (some (fun _ => none : ObjMap γ)) L).2 with
       | [] => none
       | T => some T) := by
    rw [stA m, if_pos rfl]
    have hold : (new_pending_shell st m).pending_shell_completed_messages m = none := by
      rw [hA1]
      exact hpc
    rw [hold]
    cases (run_frags_obj (some (fun _ => none : ObjMap γ)) L).2 with
    | nil => rfl
    | cons a T => simp
  have hD : (set_pending_shell_id (feed_pending_frags (new_pending_shell st m) m L) m s).2.1 =
      (run_frags_obj (some (fun _ => none : ObjMap γ)) L).2.map
        (fun t => (s, t.1, t.2.1, t.2.2)) := by
    rw [hsp]
    show (match (feed_pending_frags (new_pending_shell st m) m
        L).pending_shell_completed_messages m with
      | some l => l.map (fun (t : Int × Bytes × Option γ) => (s, t.1, t.2.1, t.2.2))
      | none => ([] : List (Deliv ι γ))) = _
    rw [hstash]
    cases (run_frags_obj (some (fun _ => none : ObjMap γ)) L).2 with
    | nil => rfl
    | cons a T => rfl
  have hcomp1 :
      fupd (feed_pending_frags (new_pending_shell st m) m L).shell_bufs s (some omA) =
      (feed_shell_frags (new_shell st s) s L).1.shell_bufs := by
    funext j
    by_cases hj : j = s
    · rw [hj, fupd_same, sB s, if_pos rfl, homA]
    · rw [fupd_ne _ _ _ _ hj, sB j, if_neg hj, shA, hA1, hB1]
      simp [fupd, hj]
  have hcomp2 :
      fupd (feed_pending_frags (new_pending_shell st m) m L).pending_shell_bufs m none =
      (feed_shell_frags (new_shell st s) s L).1.pending_shell_bufs := by
    rw [pB, hB1]
    funext j
    by_cases hj : j = m
    · rw [hj, fupd_same]
      exact hpb.symm
    · rw [fupd_ne _ _ _ _ hj, pA j, if_neg hj, hA1]
      simp [fupd, hj]
  have hcomp3 :
      fupd (feed_pending_frags (new_pending_shell st m) m
          L).pending_shell_completed_messages m none =
      (feed_shell_frags (new_shell st s) s L).1.pending_shell_completed_messages := by
    rw [mB, hB1]
    funext j
    by_cases hj : j = m
    · rw [hj, fupd_same]
      exact hpc.symm
    · rw [fupd_ne _ _ _ _ hj, stA j, if_neg hj, hA1]
  have hPR : (set_pending_shell_id (feed_pending_frags (new_pending_shell st m) m L) m s).1 =
      (feed_shell_frags (new_shell st s) s L).1 := by
    rw [hsp]
    exact DefragState.ext_eq _ _ hcomp1 hcomp2 hcomp3
  simp only [pending_promote_run, direct_run]
  rw [hD, hPR, dB]

/-- Witness for `c2_promote_pending_refinement`: pending shell 0, one
in-order single-fragment message, promotion to shell 1, then one further
message under shell 1 (identifiers are `Nat`). -/
theorem c2_promote_pending_refinement_witness :
    (emptyDefrag Nat Nat Nat).pending_shell_bufs 0 = none ∧
    (emptyDefrag Nat Nat Nat).pending_shell_completed_messages 0 = none ∧
    (emptyDefrag Nat Nat Nat).shell_bufs 1 = none ∧
    in_order_frags [(⟨7, 0, true, true, [9], none⟩ : Frag Nat)] = true ∧
    pending_promote_run (emptyDefrag Nat Nat Nat) 0 1
      [(⟨7, 0, true, true, [9], none⟩ : Frag Nat)] [⟨8, 0, true, true, [4], none⟩] =
    direct_run (emptyDefrag Nat Nat Nat) 1
      [(⟨7, 0, true, true, [9], none⟩ : Frag Nat)] [⟨8, 0, true, true, [4], none⟩] :=
  ⟨rfl, rfl, rfl, by decide,
   c2_promote_pending_refinement (emptyDefrag Nat Nat Nat) 0 1 _ _ rfl rfl rfl (by decide)⟩
